import Mathlib

/-!
Verification development for the resume-analyzer backend.

Shallow embedding of the core pipeline: the deterministic scoring engine
(`app/services/scoring_service.py`), the generative-model client with retry
and fallback (`app/services/gemini_service.py`), the two worker tasks
(`app/tasks.py`), the admin approval handler and the bulk upload
ranking/shortlist step (`app/routers/job_router.py`).

Python JSON-ish values are modelled by the inductive `PyVal`; Python float
arithmetic is modelled with exact rationals; `round(x, 2)` is modelled as
ideal decimal round-half-to-even; fallible Python code is modelled in
`Except`, with the catch-all handlers of the source mapped to the
corresponding default results.
-/

/-- A Python value as it can appear in a parsed-JSON document: `None`,
booleans, numbers, strings, lists and string-keyed dicts. -/
inductive PyVal where
  | null
  | bool (b : Bool)
  | num (q : ℚ)
  | str (s : String)
  | list (xs : List PyVal)
  | dict (xs : List (String × PyVal))

/-- Value of a digit string, most significant first. -/
def digitsVal (cs : List Char) : ℕ :=
  cs.foldl (fun acc c => acc * 10 + (c.toNat - 48)) 0

/-- Strip leading and trailing whitespace from a character list (the
whitespace stripping `float` applies to its string argument). -/
def stripChars (cs : List Char) : List Char :=
  ((cs.dropWhile Char.isWhitespace).reverse.dropWhile Char.isWhitespace).reverse

/-- Models Python `float(s)` on a string: strips surrounding whitespace and
accepts an optional sign followed by a plain decimal literal
(`digits`, `digits.digits`, `.digits`, `digits.`); anything else fails
(`ValueError`). -/
def strToFloat (s : String) : Option ℚ :=
  let cs := stripChars s.toList
  let sgn : ℚ := match cs with
    | '-' :: _ => -1
    | _ => 1
  let cs2 := match cs with
    | '+' :: t => t
    | '-' :: t => t
    | t => t
  let ip := cs2.takeWhile Char.isDigit
  let rest := cs2.dropWhile Char.isDigit
  let core : Option ℚ :=
    match rest with
    | [] => if ip.isEmpty then Option.none else some (digitsVal ip : ℚ)
    | '.' :: r2 =>
      let fp := r2.takeWhile Char.isDigit
      let r3 := r2.dropWhile Char.isDigit
      if r3.isEmpty then
        if ip.isEmpty && fp.isEmpty then Option.none
        else some ((digitsVal ip : ℚ) + (digitsVal fp : ℚ) / (10 : ℚ) ^ fp.length)
      else Option.none
    | _ => Option.none
  core.map (fun q => sgn * q)

/-- Models Python `float(value)`: numbers convert to themselves, booleans to
0/1, strings via `strToFloat`; `None`, lists and dicts raise
`TypeError` (modelled as `Option.none`). -/
def pyFloat : PyVal → Option ℚ
  | PyVal.null => Option.none
  | PyVal.bool b => some (if b then 1 else 0)
  | PyVal.num q => some q
  | PyVal.str s => strToFloat s
  | PyVal.list _ => Option.none
  | PyVal.dict _ => Option.none

/-- Python truthiness of a value (used by `if must_have_skills:`). -/
def truthy : PyVal → Bool
  | PyVal.null => false
  | PyVal.bool b => b
  | PyVal.num q => decide (q ≠ 0)
  | PyVal.str s => decide (s ≠ "")
  | PyVal.list xs => !xs.isEmpty
  | PyVal.dict xs => !xs.isEmpty

/-- Models `v.get(k, dflt)`: succeeds on a dict, raises `AttributeError`
on any other value (modelled as `Except.error`). -/
def dictGet (v : PyVal) (k : String) (dflt : PyVal) : Except Unit PyVal :=
  match v with
  | PyVal.dict xs => Except.ok ((xs.lookup k).getD dflt)
  | _ => Except.error ()

/-- `max lo (min hi v)`, the clamp used by `_safe_float`. -/
def clampQ (lo hi v : ℚ) : ℚ := max lo (min hi v)

/-- `scoring_service._safe_float(value, default, min_val, max_val)`:
convert to float and clamp, or return the default on
`TypeError`/`ValueError`. -/
def _safe_float (v : PyVal) (dflt lo hi : ℚ) : ℚ :=
  match pyFloat v with
  | some q => clampQ lo hi q
  | Option.none => dflt

/-- Ideal decimal round-half-to-even on a rational, as an integer result
(models Python `round` banker's rounding at the given scale). -/
def rhe (q : ℚ) : ℤ :=
  let f := ⌊q⌋
  if q - f < 1/2 then f
  else if 1/2 < q - f then f + 1
  else if f % 2 = 0 then f else f + 1

/-- Models Python `round(x, 2)`. -/
def pyRound2 (q : ℚ) : ℚ := (rhe (q * 100) : ℚ) / 100

/-- Technical-fit component of `calculate_final_score`:
`_safe_float(assessment.get("technical_fit_score", 0.5))`. -/
def techOf (v : PyVal) : Except Unit ℚ := do
  let a ← dictGet v "preliminary_assessment" (PyVal.dict [])
  let tv ← dictGet a "technical_fit_score" (PyVal.num 0.5)
  pure (_safe_float tv 0 0 1)

/-- Experience-fit component:
`_safe_float(assessment.get("experience_fit_score", 0.5))`. -/
def expOf (v : PyVal) : Except Unit ℚ := do
  let a ← dictGet v "preliminary_assessment" (PyVal.dict [])
  let ev ← dictGet a "experience_fit_score" (PyVal.num 0.5)
  pure (_safe_float ev 0 0 1)

/-- Keyword component: `_safe_float(resume_analysis.get("keyword_match_score", 5),
default=5.0, min_val=0.0, max_val=10.0) / 10`. -/
def keywordOf (v : PyVal) : Except Unit ℚ := do
  let ra ← dictGet v "resume_analysis" (PyVal.dict [])
  let kv ← dictGet ra "keyword_match_score" (PyVal.num 5)
  pure (_safe_float kv 5 0 10 / 10)

/-- `interviewer_json.get("job_requirements", {}).get("must_have_skills", [])`. -/
def mhsOf (v : PyVal) : Except Unit PyVal := do
  let jr ← dictGet v "job_requirements" (PyVal.dict [])
  dictGet jr "must_have_skills" (PyVal.list [])

/-- `sum(_safe_float(skill.get("candidate_proficiency", 0.5)) for skill in xs)`;
a non-dict element raises (modelled as an error). -/
def sumSkills : List PyVal → Except Unit ℚ
  | [] => Except.ok 0
  | x :: xs => do
    let pv ← dictGet x "candidate_proficiency" (PyVal.num 0.5)
    let s ← sumSkills xs
    pure (_safe_float pv 0 0 1 + s)

/-- The skill-average term: neutral `0.5` when `must_have_skills` is falsy,
the clamped average over a non-empty list, and an error (Python `TypeError`
or `AttributeError` while iterating) on any other truthy value. -/
def avgSkill (m : PyVal) : Except Unit ℚ :=
  if truthy m then
    match m with
    | PyVal.list xs => do
      let s ← sumSkills xs
      pure (s / (xs.length : ℚ))
    | _ => Except.error ()
  else pure 0.5

/-- Skill-average component of `calculate_final_score`. -/
def avgOf (v : PyVal) : Except Unit ℚ := do
  let m ← mhsOf v
  avgSkill m

/-- The body of the `try` block of `calculate_final_score`, producing the raw
weighted sum (before the final clamp and rounding, which cannot raise). -/
def scoreCore (v : PyVal) : Except Unit ℚ := do
  let t ← techOf v
  let e ← expOf v
  let k ← keywordOf v
  let a ← avgOf v
  pure (t * 0.40 + e * 0.30 + k * 0.20 + a * 0.10)

/-- `scoring_service.calculate_final_score`: weighted sum, clamped to [0,1]
and rounded to 2 decimals; any internal exception yields the neutral 0.5. -/
def calculate_final_score (v : PyVal) : ℚ :=
  match scoreCore v with
  | Except.ok q => pyRound2 (clampQ 0 1 q)
  | Except.error _ => 0.5

/-- The worked example of the spec (§8). -/
def exampleDoc : PyVal := PyVal.dict
    [("preliminary_assessment", PyVal.dict
        [("technical_fit_score", PyVal.num 0.8),
         ("experience_fit_score", PyVal.num 0.6)]),
     ("resume_analysis", PyVal.dict [("keyword_match_score", PyVal.num 8)]),
     ("job_requirements", PyVal.dict
        [("must_have_skills", PyVal.list
            [PyVal.dict [("candidate_proficiency", PyVal.num 1.0)]])])]

/-- Outcome of one `model.generate_content` invocation inside
`_parse_with_retry`, as the retry loop classifies it: the call raised
(transport error), `response.text` was empty, `json.loads` raised, or
`json.loads` returned a value. -/
inductive ModelResponse where
  | err
  | empty
  | malformed
  | parsed (v : PyVal)

/-- Whether an attempt with this outcome lands in the `except` branch of the
loop body (everything except a successfully parsed response). -/
def ModelResponse.failed : ModelResponse → Bool
  | ModelResponse.parsed _ => false
  | _ => true

/-- Result of `_parse_with_retry`: the returned document, the number of
attempts made, and the number of `time.sleep(1)` calls executed (the loop
sleeps once after every failed attempt, so consecutive attempts are one
time unit apart). -/
structure RetryResult where
  doc : PyVal
  attempts : ℕ
  sleeps : ℕ

/-- The retry loop `for attempt in range(1, MAX_RETRIES + 1)`, with
`remaining` attempts left. A parsed response is returned immediately; any
other outcome sleeps one unit and moves to the next attempt; on exhaustion
the fallback document is returned. -/
def retryGo (responses : ℕ → ModelResponse) (fallback : PyVal) :
    ℕ → ℕ → ℕ → RetryResult
  | attempt, 0, sleeps => ⟨fallback, attempt - 1, sleeps⟩
  | attempt, remaining + 1, sleeps =>
    match responses attempt with
    | ModelResponse.parsed v => ⟨v, attempt, sleeps⟩
    | _ => retryGo responses fallback (attempt + 1) remaining (sleeps + 1)

/-- `gemini_service.MAX_RETRIES`. -/
def MAX_RETRIES : ℕ := 3

/-- `gemini_service._parse_with_retry(prompt, fallback, schema)`, abstracted
over the model behaviour: `responses i` is the outcome of the i-th
invocation (the prompt and schema only shape that outcome, so they are
absorbed into the oracle). Total: it never raises to its caller. -/
def _parse_with_retry (responses : ℕ → ModelResponse) (fallback : PyVal) : RetryResult :=
  retryGo responses fallback 1 MAX_RETRIES 0

/-- The fallback document of `generate_candidate_analysis`. -/
def candidateFallback : PyVal := PyVal.dict
  [("company", PyVal.str "Unknown"),
   ("role", PyVal.str "Unknown"),
   ("swot_analysis", PyVal.dict
      [("strengths", PyVal.list []),
       ("weaknesses", PyVal.list []),
       ("opportunities", PyVal.list []),
       ("threats", PyVal.list [])]),
   ("requiredskills", PyVal.list []),
   ("concepts_revision", PyVal.list []),
   ("QA", PyVal.list []),
   ("company_insights", PyVal.list [])]

/-- The fallback document of `generate_interviewer_analysis`. -/
def interviewerFallback : PyVal := PyVal.dict
  [("candidate_info", PyVal.dict
      [("name", PyVal.str "Unknown"),
       ("contact", PyVal.dict [("email", PyVal.str "")]),
       ("years_of_experience", PyVal.num 0)]),
   ("job_requirements", PyVal.dict
      [("must_have_skills", PyVal.list []),
       ("good_to_have_skills", PyVal.list [])]),
   ("resume_analysis", PyVal.dict
      [("education_match", PyVal.dict
          [("required_education", PyVal.str ""),
           ("candidate_education", PyVal.str ""),
           ("match_score", PyVal.num 0),
           ("score_reasoning", PyVal.str "")]),
       ("experience_match", PyVal.dict
          [("required_years", PyVal.num 0),
           ("candidate_years", PyVal.num 0),
           ("relevant_experience_score", PyVal.num 0),
           ("score_reasoning", PyVal.str "")]),
       ("skill_gaps", PyVal.list []),
       ("keyword_match_score", PyVal.num 0),
       ("keyword_match_reasoning", PyVal.str "")]),
   ("preliminary_assessment", PyVal.dict
      [("technical_fit_score", PyVal.num 0),
       ("technical_fit_reasoning", PyVal.str ""),
       ("experience_fit_score", PyVal.num 0),
       ("experience_fit_reasoning", PyVal.str ""),
       ("potential_culture_fit", PyVal.num 0),
       ("culture_fit_reasoning", PyVal.str "")]),
   ("screening_decision", PyVal.dict
      [("decision_reasoning", PyVal.str ""),
       ("interview_type", PyVal.str "technical"),
       ("priority", PyVal.str "medium"),
       ("priority_justification", PyVal.str "")])]

/-- `generate_candidate_analysis(jd_text, resume_text)`: one AnalysisClient
call with the candidate-view fallback (the texts only shape the prompt,
absorbed into the response oracle). -/
def generate_candidate_analysis (responses : ℕ → ModelResponse) : RetryResult :=
  _parse_with_retry responses candidateFallback

/-- `generate_interviewer_analysis(jd_text, resume_text)`: one
AnalysisClient call with the interviewer-view fallback. -/
def generate_interviewer_analysis (responses : ℕ → ModelResponse) : RetryResult :=
  _parse_with_retry responses interviewerFallback

/-- Whether a document has the key at top level. -/
def hasKey (v : PyVal) (k : String) : Bool :=
  match v with
  | PyVal.dict xs => (xs.lookup k).isSome
  | _ => false

/-- Whether every key of the list is present at top level. -/
def requiredPresent (v : PyVal) (keys : List String) : Bool :=
  keys.all (hasKey v)

/-- The top-level `required` list of `candidate_schema`
(`response_format.py`, the schema module `gemini_service.py` imports). -/
def candidateRequired : List String :=
  ["company", "role", "swot_analysis", "requiredskills", "concepts_revision",
   "QA", "company_insights"]

/-- The top-level `required` list of `interviewer_schema`
(`response_format.py`). -/
def interviewerRequired : List String :=
  ["candidate_info", "job_requirements", "resume_analysis",
   "preliminary_assessment", "screening_decision"]

/-- Walk a key path through nested dicts. -/
def getPath : PyVal → List String → Option PyVal
  | v, [] => some v
  | PyVal.dict xs, k :: rest =>
    match xs.lookup k with
    | some w => getPath w rest
    | Option.none => Option.none
  | _, _ :: _ => Option.none

/-- The field at the key path exists. -/
def hasPath (v : PyVal) (path : List String) : Bool :=
  (getPath v path).isSome

/-- The value at the key path is an array each of whose elements carries all
the listed keys (the `required` list of the array's `items` schema). -/
def arrayItemsHaveKeys (v : PyVal) (path : List String) (keys : List String) : Bool :=
  match getPath v path with
  | some (PyVal.list xs) => xs.all (fun w => keys.all (hasKey w))
  | _ => false

/-- A document satisfies a schema's required-field structure: the top-level
`required` list is present, every key path obtained by following `required`
lists through nested objects is present, and each required array's elements
carry their items' `required` keys. -/
def schemaComplete (v : PyVal) (req : List String) (paths : List (List String))
    (arrays : List (List String × List String)) : Bool :=
  requiredPresent v req && paths.all (hasPath v) &&
    arrays.all (fun pk => arrayItemsHaveKeys v pk.1 pk.2)

/-- Every key path through the `required` lists of `candidate_schema`
(`response_format.py`): the top-level seven fields and the required fields
of the `swot_analysis` object. -/
def candidateRequiredPaths : List (List String) :=
  [["company"], ["role"], ["swot_analysis"],
   ["swot_analysis", "strengths"], ["swot_analysis", "weaknesses"],
   ["swot_analysis", "opportunities"], ["swot_analysis", "threats"],
   ["requiredskills"], ["concepts_revision"], ["QA"], ["company_insights"]]

/-- The required arrays of `candidate_schema` with the `required` keys of
their `items` schemas (the SWOT lists hold plain strings, so no item keys;
requirements nested deeper inside items, such as the `interview_questions`
of a `concepts_revision` entry, apply per element and are vacuous on the
fallback's empty arrays). -/
def candidateArrayItemKeys : List (List String × List String) :=
  [(["swot_analysis", "strengths"], []), (["swot_analysis", "weaknesses"], []),
   (["swot_analysis", "opportunities"], []), (["swot_analysis", "threats"], []),
   (["requiredskills"], ["skill", "candidate_skill"]),
   (["concepts_revision"], ["topic", "brief", "yt_search_query", "interview_questions"]),
   (["QA"], ["question", "answer"]),
   (["company_insights"], ["information_type", "info"])]

/-- Every key path through the `required` lists of `interviewer_schema`
(`response_format.py`). -/
def interviewerRequiredPaths : List (List String) :=
  [["candidate_info"], ["candidate_info", "name"], ["candidate_info", "contact"],
   ["candidate_info", "contact", "email"], ["candidate_info", "years_of_experience"],
   ["job_requirements"], ["job_requirements", "must_have_skills"],
   ["job_requirements", "good_to_have_skills"],
   ["resume_analysis"], ["resume_analysis", "education_match"],
   ["resume_analysis", "education_match", "required_education"],
   ["resume_analysis", "education_match", "candidate_education"],
   ["resume_analysis", "education_match", "match_score"],
   ["resume_analysis", "education_match", "score_reasoning"],
   ["resume_analysis", "experience_match"],
   ["resume_analysis", "experience_match", "required_years"],
   ["resume_analysis", "experience_match", "candidate_years"],
   ["resume_analysis", "experience_match", "relevant_experience_score"],
   ["resume_analysis", "experience_match", "score_reasoning"],
   ["resume_analysis", "skill_gaps"], ["resume_analysis", "keyword_match_score"],
   ["resume_analysis", "keyword_match_reasoning"],
   ["preliminary_assessment"], ["preliminary_assessment", "technical_fit_score"],
   ["preliminary_assessment", "technical_fit_reasoning"],
   ["preliminary_assessment", "experience_fit_score"],
   ["preliminary_assessment", "experience_fit_reasoning"],
   ["preliminary_assessment", "potential_culture_fit"],
   ["preliminary_assessment", "culture_fit_reasoning"],
   ["screening_decision"], ["screening_decision", "decision_reasoning"],
   ["screening_decision", "interview_type"], ["screening_decision", "priority"],
   ["screening_decision", "priority_justification"]]

/-- The required arrays of `interviewer_schema` with the `required` keys of
their `items` schemas (`skill_gaps` holds plain strings). -/
def interviewerArrayItemKeys : List (List String × List String) :=
  [(["job_requirements", "must_have_skills"], ["skill_name", "candidate_proficiency"]),
   (["job_requirements", "good_to_have_skills"], ["skill_name", "candidate_proficiency"]),
   (["resume_analysis", "skill_gaps"], [])]

/-- A `JobDescription` row (fields the core reads). -/
structure Job where
  id : ℕ
  raw_text : String

/-- An `ExternalCandidate` row (fields the core reads and writes). -/
structure ExtCandidate where
  id : ℕ
  job_id : ℕ
  name : String
  email : Option String
  raw_resume_text : Option String
  status : String
  final_score : Option ℚ
  analysis_candidate : Option PyVal
  analysis_interviewer : Option PyVal

/-- A `JobApplication` row (fields the core reads and writes). -/
structure JobApplication where
  job_id : ℕ
  user_id : ℕ
  status : String
  final_score : Option ℚ
  analysis_candidate : Option PyVal
  analysis_interviewer : Option PyVal

/-- A `Resume` row (fields the core reads). -/
structure Resume where
  user_id : ℕ
  parsed_text : Option String

/-- The persisted state the pipeline touches. -/
structure Db where
  jobs : List Job
  externals : List ExtCandidate
  applications : List JobApplication
  resumes : List Resume

/-- Replace the first candidate with the given id (the ORM object the
query returned). -/
def replaceFirstExt : List ExtCandidate → ℕ → ExtCandidate → List ExtCandidate
  | [], _, _ => []
  | c :: cs, cid, c2 => if c.id == cid then c2 :: cs else c :: replaceFirstExt cs cid c2

/-- Replace the first application with the given job and user ids. -/
def replaceFirstApp : List JobApplication → ℕ → ℕ → JobApplication → List JobApplication
  | [], _, _, _ => []
  | a :: rest, jid, uid, a2 =>
    if a.job_id == jid && a.user_id == uid then a2 :: rest
    else a :: replaceFirstApp rest jid uid a2

/-- Outcome of one worker-task run: the resulting persisted state, how many
AnalysisClient calls were made, and whether an exception propagated to the
broker (after rollback). -/
structure TaskOutcome where
  db : Db
  analysisCalls : ℕ
  raised : Bool

/-- The candidate record as committed after a successful analysis: both
documents, the score computed from the interviewer document, and the status
flip to "analyzed", written together (one `db.commit()`). -/
def analyzedExt (cand : ExtCandidate) (ca ia : PyVal) : ExtCandidate :=
  { cand with
      analysis_candidate := some ca,
      analysis_interviewer := some ia,
      final_score := some (calculate_final_score ia),
      status := "analyzed" }

/-- The application record as committed after a successful analysis. -/
def analyzedApp (app : JobApplication) (ca ia : PyVal) : JobApplication :=
  { app with
      analysis_candidate := some ca,
      analysis_interviewer := some ia,
      final_score := some (calculate_final_score ia),
      status := "analyzed" }

/-- The committed state: the external-candidate table with one row replaced. -/
def commitExtDb (db : Db) (cid : ℕ) (cand2 : ExtCandidate) : Db :=
  { db with externals := replaceFirstExt db.externals cid cand2 }

/-- The committed state: the application table with one row replaced. -/
def commitAppDb (db : Db) (jid uid : ℕ) (app2 : JobApplication) : Db :=
  { db with applications := replaceFirstApp db.applications jid uid app2 }

/-- `tasks.process_external_resume(candidate_id)`: load candidate and job,
silently return when the candidate, the job or the resume text is missing,
otherwise run the two AnalysisClient calls, score, and commit all four
fields together; `commitOk = false` models a persistence error at commit,
which rolls the transaction back (state unchanged) and re-raises. -/
def process_external_resume (db : Db) (candidate_id : ℕ)
    (candResponses intResponses : ℕ → ModelResponse) (commitOk : Bool) : TaskOutcome :=
  match db.externals.find? (fun c => c.id == candidate_id) with
  | Option.none => ⟨db, 0, false⟩
  | some cand =>
    match db.jobs.find? (fun j => j.id == cand.job_id) with
    | Option.none => ⟨db, 0, false⟩
    | some _job =>
      match cand.raw_resume_text with
      | Option.none => ⟨db, 0, false⟩
      | some txt =>
        if txt = "" then ⟨db, 0, false⟩
        else
          let ca := (generate_candidate_analysis candResponses).doc
          let ia := (generate_interviewer_analysis intResponses).doc
          if commitOk then
            ⟨commitExtDb db candidate_id (analyzedExt cand ca ia), 2, false⟩
          else ⟨db, 2, true⟩

/-- `tasks.process_internal_resume(job_id, user_id)`: the internal-candidate
analogue over `JobApplication` and `Resume`. -/
def process_internal_resume (db : Db) (job_id user_id : ℕ)
    (candResponses intResponses : ℕ → ModelResponse) (commitOk : Bool) : TaskOutcome :=
  match db.applications.find? (fun a => a.job_id == job_id && a.user_id == user_id) with
  | Option.none => ⟨db, 0, false⟩
  | some app =>
    match db.jobs.find? (fun j => j.id == job_id) with
    | Option.none => ⟨db, 0, false⟩
    | some _job =>
      match db.resumes.find? (fun r => r.user_id == user_id) with
      | Option.none => ⟨db, 0, false⟩
      | some resume =>
        match resume.parsed_text with
        | Option.none => ⟨db, 0, false⟩
        | some txt =>
          if txt = "" then ⟨db, 0, false⟩
          else
            let ca := (generate_candidate_analysis candResponses).doc
            let ia := (generate_interviewer_analysis intResponses).doc
            if commitOk then
              ⟨commitAppDb db job_id user_id (analyzedApp app ca ia), 2, false⟩
            else ⟨db, 2, true⟩

/-- One entry of the `results` list built by `upload_multiple_cvs` /
`attach_vault_files`: the candidate name and its score, `Option.none` for an
error-marked record. -/
structure RankEntry where
  name : String
  score : Option ℚ

/-- The sort key `x.get("score") or 0`: a missing (`None`) score — and a
score of exactly 0 — both key as 0. -/
def sortKey (e : RankEntry) : ℚ := e.score.getD 0

/-- `a` may come before `b` in the descending ranking. -/
def rankLE (a b : RankEntry) : Prop := sortKey b ≤ sortKey a

instance : DecidableRel rankLE := fun a b => inferInstanceAs (Decidable (sortKey b ≤ sortKey a))

instance : IsTrans RankEntry rankLE := ⟨fun _ _ _ h1 h2 => le_trans h2 h1⟩

instance : IsTotal RankEntry rankLE := ⟨fun a b => le_total (sortKey b) (sortKey a)⟩

/-- `results.sort(key=lambda x: (x.get("score") or 0), reverse=True)`:
Python's sort is stable, and the stable descending sort by a key is unique,
so it is modelled by insertion sort with `rankLE` (which keeps the earlier
element on ties). -/
def rankSort (l : List RankEntry) : List RankEntry := List.insertionSort rankLE l

/-- `r.get("score") is not None`, the validity filter. -/
def isValid (e : RankEntry) : Bool := e.score.isSome

/-- `max(1, int(len(valid) * 0.2)) if valid else 0`; `int(n * 0.2)`
truncates the exact value `n / 5` downwards, which is natural division. -/
def shortlistCount (valid : List RankEntry) : ℕ :=
  if valid.isEmpty then 0 else max 1 (valid.length / 5)

/-- `{r["candidate_name"] for r in valid[:shortlist_count]}` (membership in
the set is membership in this list). -/
def topNames (valid : List RankEntry) (count : ℕ) : List String :=
  (valid.take count).map (fun e => e.name)

/-- The row-level effect of the bulk
`UPDATE ... WHERE job_id = jid AND name IN top_names SET status = "shortlisted"`. -/
def shortlistRow (jid : ℕ) (names : List String) (c : ExtCandidate) : ExtCandidate :=
  if c.job_id == jid && names.contains c.name then { c with status := "shortlisted" } else c

/-- The guarded bulk update (`if top_names:` — skipped when the name set is
empty). -/
def applyShortlist (db : Db) (jid : ℕ) (names : List String) : Db :=
  if names.isEmpty then db
  else { db with externals := db.externals.map (shortlistRow jid names) }

/-- The ranking/shortlist epilogue shared by `upload_multiple_cvs` and
`attach_vault_files` (job_router lines 501-519 and 596-614): sort the batch
results, filter the valid ones, compute the shortlist size, and relabel by
name. Returns the updated state, the shortlist count and the sorted list. -/
def bulkShortlist (db : Db) (jid : ℕ) (results : List RankEntry) : Db × ℕ × List RankEntry :=
  let sorted := rankSort results
  let valid := sorted.filter isValid
  let count := shortlistCount valid
  (applyShortlist db jid (topNames valid count), count, sorted)

def entA1 : RankEntry := ⟨"a", some 0.9⟩

def entA2 : RankEntry := ⟨"a", some 0.1⟩

def candA1 : ExtCandidate :=
  ⟨1, 1, "a", Option.none, some "t1", "analyzed", some 0.9, Option.none, Option.none⟩

def candA2 : ExtCandidate :=
  ⟨2, 1, "a", Option.none, some "t2", "analyzed", some 0.1, Option.none, Option.none⟩

def dbDup : Db := ⟨[⟨1, "jd text"⟩], [candA1, candA2], [], []⟩

/-- A FastAPI `HTTPException`: status code and detail message. -/
structure HttpErr where
  code : ℕ
  detail : String

/-- The application record as committed by the approval handler (status
"approved", score and both documents written together). -/
def approvedApp (app : JobApplication) (ca ia : PyVal) : JobApplication :=
  { app with
      analysis_candidate := some ca,
      analysis_interviewer := some ia,
      final_score := some (calculate_final_score ia),
      status := "approved" }

/-- `job_router.approve_request(job_id, user_id)`: the query filters on
`status == "requested"`, so any record in another state falls into the
404 "Pending request not found" branch, which leaves the state untouched.
The handler's `try/except` around the AI calls is unreachable here because
the AnalysisClient embedding is total; the notification send is outside the
modelled state. Returns the (possibly updated) state and the HTTP result. -/
def approve_request (db : Db) (jid uid : ℕ) (candR intR : ℕ → ModelResponse) :
    Db × Except HttpErr ℚ :=
  match db.applications.find?
      (fun a => a.job_id == jid && a.user_id == uid && a.status == "requested") with
  | Option.none => (db, Except.error ⟨404, "Pending request not found"⟩)
  | some app =>
    match db.jobs.find? (fun j => j.id == jid) with
    | Option.none => (db, Except.error ⟨404, "Job not found"⟩)
    | some _job =>
      match db.resumes.find? (fun r => r.user_id == uid) with
      | Option.none => (db, Except.error ⟨400, "Candidate has no resume text available"⟩)
      | some resume =>
        match resume.parsed_text with
        | Option.none => (db, Except.error ⟨400, "Candidate has no resume text available"⟩)
        | some txt =>
          if txt = "" then (db, Except.error ⟨400, "Candidate has no resume text available"⟩)
          else
            let ca := (generate_candidate_analysis candR).doc
            let ia := (generate_interviewer_analysis intR).doc
            (commitAppDb db jid uid (approvedApp app ca ia),
              Except.ok (calculate_final_score ia))

def jobW : Job := ⟨1, "jd text"⟩

def candW : ExtCandidate :=
  ⟨1, 1, "Alice", Option.none, some "cv text", "queued", Option.none, Option.none, Option.none⟩

def appW : JobApplication := ⟨1, 7, "approved", Option.none, Option.none, Option.none⟩

def resW : Resume := ⟨7, some "cv text"⟩

def dbW : Db := ⟨[jobW], [candW], [appW], [resW]⟩

def emptyDb : Db := ⟨[], [], [], []⟩

/-- A model endpoint that always raises (transport failure on every call). -/
def failR : ℕ → ModelResponse := fun _ => ModelResponse.err

def docTech (x : PyVal) : PyVal :=
  PyVal.dict [("preliminary_assessment", PyVal.dict [("technical_fit_score", x)])]

def docExp (x : PyVal) : PyVal :=
  PyVal.dict [("preliminary_assessment", PyVal.dict [("experience_fit_score", x)])]

def docEmptyAssessment : PyVal := PyVal.dict [("preliminary_assessment", PyVal.dict [])]

def docKw (x : PyVal) : PyVal :=
  PyVal.dict [("resume_analysis", PyVal.dict [("keyword_match_score", x)])]

def docProf (x : PyVal) : PyVal :=
  PyVal.dict [("job_requirements", PyVal.dict
    [("must_have_skills", PyVal.list [PyVal.dict [("candidate_proficiency", x)]])])]

def docProfMissing : PyVal :=
  PyVal.dict [("job_requirements", PyVal.dict
    [("must_have_skills", PyVal.list [PyVal.dict []])])]

/-- Decimal round-half-to-even of an exact integer is that integer. -/
theorem rhe_intCast (n : ℤ) : rhe (n : ℚ) = n := by
  simp [rhe, Int.floor_intCast]

/-- The clamp is the identity inside the interval. -/
theorem clampQ_eq_self {lo hi v : ℚ} (h1 : lo ≤ v) (h2 : v ≤ hi) : clampQ lo hi v = v := by
  unfold clampQ
  rw [min_eq_right h2, max_eq_right h1]

/-- `round(q, 2)` is the identity on a rational that is an exact multiple
of 1/100. -/
theorem pyRound2_int (q : ℚ) (n : ℤ) (h : q * 100 = n) : pyRound2 q = q := by
  unfold pyRound2
  rw [h, rhe_intCast]
  field_simp
  linarith [h]

theorem clampQ_mem (lo hi v : ℚ) (h : lo ≤ hi) : lo ≤ clampQ lo hi v ∧ clampQ lo hi v ≤ hi :=
  ⟨le_max_left _ _, max_le h (min_le_left _ _)⟩

theorem rhe_nonneg {q : ℚ} (h : 0 ≤ q) : 0 ≤ rhe q := by
  have hf : (0 : ℤ) ≤ ⌊q⌋ := Int.floor_nonneg.mpr h
  simp only [rhe]
  split_ifs <;> omega

theorem rhe_le {q : ℚ} {n : ℤ} (h : q ≤ (n : ℚ)) : rhe q ≤ n := by
  have hf : ⌊q⌋ ≤ n := by
    have h2 := Int.floor_le_floor h
    simpa using h2
  have hfl : (⌊q⌋ : ℚ) ≤ q := Int.floor_le q
  simp only [rhe]
  split_ifs with h1 h2 h3
  · exact hf
  · have h4 : (⌊q⌋ : ℚ) < (n : ℚ) := by linarith
    have h5 : ⌊q⌋ < n := by exact_mod_cast h4
    omega
  · exact hf
  · have h4 : (⌊q⌋ : ℚ) < (n : ℚ) := by linarith
    have h5 : ⌊q⌋ < n := by exact_mod_cast h4
    omega

theorem pyRound2_bounds {q : ℚ} (h1 : 0 ≤ q) (h2 : q ≤ 1) :
    0 ≤ pyRound2 q ∧ pyRound2 q ≤ 1 := by
  have ha : 0 ≤ rhe (q * 100) := rhe_nonneg (by linarith)
  have hb : rhe (q * 100) ≤ 100 := rhe_le (by push_cast; linarith)
  unfold pyRound2
  constructor
  · apply div_nonneg _ (by norm_num)
    exact_mod_cast ha
  · rw [div_le_one (by norm_num)]
    exact_mod_cast hb

theorem pyRound2_idem (q : ℚ) : pyRound2 (pyRound2 q) = pyRound2 q := by
  have h : pyRound2 q * 100 = ((rhe (q * 100) : ℤ) : ℚ) := by
    unfold pyRound2
    field_simp
  exact pyRound2_int _ _ h

/-- Combining the four `Except.ok` components yields the raw weighted sum. -/
theorem scoreCore_eq {v : PyVal} {t e k a : ℚ} (ht : techOf v = Except.ok t)
    (he : expOf v = Except.ok e) (hk : keywordOf v = Except.ok k)
    (ha : avgOf v = Except.ok a) :
    scoreCore v = Except.ok (t * 0.40 + e * 0.30 + k * 0.20 + a * 0.10) := by
  simp [scoreCore, ht, he, hk, ha, bind, Except.bind, pure, Except.pure]

/-- C2: for every input dictionary (any shape), `calculate_final_score`
returns a value in [0, 1] that is fixed by rounding to two decimals; it is a
total function (internal errors produce the neutral 0.5), so it never raises. -/
theorem c2_score_total_in_unit_interval (xs : List (String × PyVal)) :
    0 ≤ calculate_final_score (PyVal.dict xs) ∧
    calculate_final_score (PyVal.dict xs) ≤ 1 ∧
    pyRound2 (calculate_final_score (PyVal.dict xs)) = calculate_final_score (PyVal.dict xs) := by
  unfold calculate_final_score
  rcases h : scoreCore (PyVal.dict xs) with e | q
  · refine ⟨by norm_num, by norm_num, ?_⟩
    exact pyRound2_int _ 50 (by norm_num)
  · obtain ⟨hc1, hc2⟩ := clampQ_mem 0 1 q (by norm_num)
    obtain ⟨hb1, hb2⟩ := pyRound2_bounds hc1 hc2
    exact ⟨hb1, hb2, pyRound2_idem _⟩

theorem exampleDoc_core : scoreCore exampleDoc = Except.ok 0.76 := by
  simp [scoreCore, techOf, expOf, keywordOf, avgOf, mhsOf, avgSkill, sumSkills, truthy,
    dictGet, exampleDoc, List.lookup, _safe_float, pyFloat, bind, Except.bind, pure, Except.pure]
  rw [clampQ_eq_self (by norm_num) (by norm_num), clampQ_eq_self (by norm_num) (by norm_num),
    clampQ_eq_self (by norm_num) (by norm_num), clampQ_eq_self (by norm_num) (by norm_num)]
  norm_num

/-- C9: the spec's worked example scores exactly 0.76, and on any document
whose `must_have_skills` is the empty list the skill-average term is the
neutral 0.5, contributing exactly 0.5 * 0.10 = 0.05 to the weighted sum. -/
theorem c9_worked_example_and_empty_skills :
    calculate_final_score exampleDoc = 0.76 ∧
    (∀ v t e k, techOf v = Except.ok t → expOf v = Except.ok e →
      keywordOf v = Except.ok k → mhsOf v = Except.ok (PyVal.list []) →
      avgOf v = Except.ok 0.5 ∧
      scoreCore v = Except.ok (t * 0.40 + e * 0.30 + k * 0.20 + 0.5 * 0.10) ∧
      (0.5 : ℚ) * 0.10 = 0.05) := by
  constructor
  · unfold calculate_final_score
    rw [exampleDoc_core]
    show pyRound2 (clampQ 0 1 (0.76 : ℚ)) = 0.76
    rw [clampQ_eq_self (by norm_num) (by norm_num)]
    exact pyRound2_int _ 76 (by norm_num)
  · intro v t e k ht he hk hm
    have hav : avgOf v = Except.ok 0.5 := by
      simp [avgOf, hm, avgSkill, truthy, bind, Except.bind, pure, Except.pure]
    exact ⟨hav, scoreCore_eq ht he hk hav, by norm_num⟩

theorem c9_worked_example_and_empty_skills_witness :
    techOf (PyVal.dict []) = Except.ok 0.5 ∧
    expOf (PyVal.dict []) = Except.ok 0.5 ∧
    keywordOf (PyVal.dict []) = Except.ok 0.5 ∧
    mhsOf (PyVal.dict []) = Except.ok (PyVal.list []) ∧
    (avgOf (PyVal.dict []) = Except.ok 0.5 ∧
      scoreCore (PyVal.dict []) =
        Except.ok ((0.5 : ℚ) * 0.40 + 0.5 * 0.30 + 0.5 * 0.20 + 0.5 * 0.10) ∧
      (0.5 : ℚ) * 0.10 = 0.05) := by
  have ht : techOf (PyVal.dict []) = Except.ok 0.5 := by
    simp [techOf, dictGet, List.lookup, _safe_float, pyFloat, bind, Except.bind, pure,
      Except.pure]
    rw [clampQ_eq_self (by norm_num) (by norm_num)]
  have he : expOf (PyVal.dict []) = Except.ok 0.5 := by
    simp [expOf, dictGet, List.lookup, _safe_float, pyFloat, bind, Except.bind, pure,
      Except.pure]
    rw [clampQ_eq_self (by norm_num) (by norm_num)]
  have hk : keywordOf (PyVal.dict []) = Except.ok 0.5 := by
    simp [keywordOf, dictGet, List.lookup, _safe_float, pyFloat, bind, Except.bind, pure,
      Except.pure]
    rw [clampQ_eq_self (by norm_num) (by norm_num)]
    norm_num
  have hm : mhsOf (PyVal.dict []) = Except.ok (PyVal.list []) := by
    simp [mhsOf, dictGet, List.lookup, bind, Except.bind, pure, Except.pure]
  exact ⟨ht, he, hk, hm,
    (c9_worked_example_and_empty_skills).2 (PyVal.dict []) 0.5 0.5 0.5 ht he hk hm⟩

/-- A failed attempt advances the loop, sleeping one unit. -/
theorem retryGo_step {responses : ℕ → ModelResponse} {fallback : PyVal}
    {attempt remaining sleeps : ℕ} (h : (responses attempt).failed = true) :
    retryGo responses fallback attempt (remaining + 1) sleeps =
      retryGo responses fallback (attempt + 1) remaining (sleeps + 1) := by
  rcases hr : responses attempt with _ | _ | _ | v <;> simp [retryGo, hr]
  · rw [hr] at h
    simp [ModelResponse.failed] at h

/-- When every invocation fails, the loop exhausts its 3 attempts with 3
sleeps and yields the fallback. -/
theorem retry_exhaust {responses : ℕ → ModelResponse} {fallback : PyVal}
    (h : ∀ i, (responses i).failed = true) :
    _parse_with_retry responses fallback = ⟨fallback, 3, 3⟩ := by
  unfold _parse_with_retry MAX_RETRIES
  rw [show (3 : ℕ) = 2 + 1 from rfl, retryGo_step (h 1),
    show (2 : ℕ) = 1 + 1 from rfl, retryGo_step (h 2),
    show (1 : ℕ) = 0 + 1 from rfl, retryGo_step (h 3)]
  rfl

/-- C3: if every model invocation fails, `_parse_with_retry` makes exactly 3
attempts, sleeping one time unit after each failed attempt (so consecutive
attempts are one unit apart), and returns the fallback document; being a
total function it never raises to its caller. Both pipeline fallbacks
satisfy the full required-field structure of their schema as defined in
`response_format.py` (the top-level `required` list, every nested required
key path, and the `required` keys of each required array's items). -/
theorem c3_retry_exhaustion_returns_fallback :
    (∀ (responses : ℕ → ModelResponse) (fallback : PyVal),
      (∀ i, (responses i).failed = true) →
      _parse_with_retry responses fallback = ⟨fallback, 3, 3⟩) ∧
    schemaComplete candidateFallback candidateRequired candidateRequiredPaths
      candidateArrayItemKeys = true ∧
    schemaComplete interviewerFallback interviewerRequired interviewerRequiredPaths
      interviewerArrayItemKeys = true :=
  ⟨fun _ _ h => retry_exhaust h, by decide, by decide⟩

theorem c3_retry_exhaustion_returns_fallback_witness :
    _parse_with_retry (fun _ => ModelResponse.err) interviewerFallback =
      ⟨interviewerFallback, 3, 3⟩ :=
  c3_retry_exhaustion_returns_fallback.1 (fun _ => ModelResponse.err)
    interviewerFallback (fun _ => rfl)

/-- C4 counterexample: a response that parses as valid JSON but misses every
required field of the interviewer schema is returned as-is by the first
attempt — it is not counted as a failed attempt. -/
theorem c4_counterexample_parsed_without_required_fields :
    _parse_with_retry (fun _ => ModelResponse.parsed (PyVal.dict [])) interviewerFallback =
      ⟨PyVal.dict [], 1, 0⟩ ∧
    requiredPresent (PyVal.dict []) interviewerRequired = false :=
  ⟨rfl, by decide⟩

/-- C4 (amended): within one attempt, the loop counts the attempt as failed
iff the call raised, the response was empty, or it failed to parse as JSON;
any response that parses is returned immediately, with no required-field
check (schema enforcement is delegated to the model endpoint via the
request's `response_schema`). -/
theorem c4_parse_is_only_client_side_check
    (responses : ℕ → ModelResponse) (fallback : PyVal) (v : PyVal)
    (h : responses 1 = ModelResponse.parsed v) :
    _parse_with_retry responses fallback = ⟨v, 1, 0⟩ := by
  unfold _parse_with_retry MAX_RETRIES
  rw [show (3 : ℕ) = 2 + 1 from rfl]
  simp [retryGo, h]

theorem c4_parse_is_only_client_side_check_witness :
    _parse_with_retry (fun _ => ModelResponse.parsed (PyVal.dict [])) candidateFallback =
      ⟨PyVal.dict [], 1, 0⟩ :=
  c4_parse_is_only_client_side_check _ _ _ rfl

/-- The interviewer fallback document scores 0.05 (its fit and keyword
scores are 0 and its skill list is empty, leaving only the neutral
skill-average term 0.5 * 0.10). -/
theorem interviewerFallback_core : scoreCore interviewerFallback = Except.ok 0.05 := by
  simp [scoreCore, techOf, expOf, keywordOf, avgOf, mhsOf, avgSkill, sumSkills, truthy,
    dictGet, interviewerFallback, List.lookup, _safe_float, pyFloat, clampQ, bind,
    Except.bind, pure, Except.pure]
  norm_num

theorem interviewerFallback_score : calculate_final_score interviewerFallback = 0.05 := by
  unfold calculate_final_score
  rw [interviewerFallback_core]
  show pyRound2 (clampQ 0 1 (0.05 : ℚ)) = 0.05
  rw [clampQ_eq_self (by norm_num) (by norm_num)]
  exact pyRound2_int _ 5 (by norm_num)

/-- Reduction of the external task when all lookups succeed. -/
theorem process_external_run {db : Db} {cid : ℕ} {cand : ExtCandidate} {job : Job}
    {txt : String} {candR intR : ℕ → ModelResponse} {commitOk : Bool}
    (h1 : db.externals.find? (fun c => c.id == cid) = some cand)
    (h2 : db.jobs.find? (fun j => j.id == cand.job_id) = some job)
    (h3 : cand.raw_resume_text = some txt)
    (h4 : txt ≠ "") :
    process_external_resume db cid candR intR commitOk =
      if commitOk then
        ⟨commitExtDb db cid
          (analyzedExt cand (generate_candidate_analysis candR).doc
            (generate_interviewer_analysis intR).doc), 2, false⟩
      else ⟨db, 2, true⟩ := by
  simp [process_external_resume, h1, h2, h3, h4]

/-- Reduction of the internal task when all lookups succeed. -/
theorem process_internal_run {db : Db} {jid uid : ℕ} {app : JobApplication} {job : Job}
    {resume : Resume} {txt : String} {candR intR : ℕ → ModelResponse} {commitOk : Bool}
    (h1 : db.applications.find? (fun a => a.job_id == jid && a.user_id == uid) = some app)
    (h2 : db.jobs.find? (fun j => j.id == jid) = some job)
    (h3 : db.resumes.find? (fun r => r.user_id == uid) = some resume)
    (h4 : resume.parsed_text = some txt)
    (h5 : txt ≠ "") :
    process_internal_resume db jid uid candR intR commitOk =
      if commitOk then
        ⟨commitAppDb db jid uid
          (analyzedApp app (generate_candidate_analysis candR).doc
            (generate_interviewer_analysis intR).doc), 2, false⟩
      else ⟨db, 2, true⟩ := by
  simp [process_internal_resume, h1, h2, h3, h4, h5]

/-- C7: the worker persists both analysis documents, the final score and the
status flip to "analyzed" in one commit, and a persistence error at commit
rolls everything back (state unchanged) and re-raises to the broker. -/
theorem c7_atomic_commit_or_rollback :
    (∀ (db : Db) (cid : ℕ) (cand : ExtCandidate) (job : Job) (txt : String)
      (candR intR : ℕ → ModelResponse),
      db.externals.find? (fun c => c.id == cid) = some cand →
      db.jobs.find? (fun j => j.id == cand.job_id) = some job →
      cand.raw_resume_text = some txt → txt ≠ "" →
      (process_external_resume db cid candR intR false).db = db ∧
      (process_external_resume db cid candR intR false).raised = true ∧
      (process_external_resume db cid candR intR true).raised = false ∧
      (process_external_resume db cid candR intR true).db =
        commitExtDb db cid
          (analyzedExt cand (generate_candidate_analysis candR).doc
            (generate_interviewer_analysis intR).doc)) ∧
    (∀ (db : Db) (jid uid : ℕ) (app : JobApplication) (job : Job) (resume : Resume)
      (txt : String) (candR intR : ℕ → ModelResponse),
      db.applications.find? (fun a => a.job_id == jid && a.user_id == uid) = some app →
      db.jobs.find? (fun j => j.id == jid) = some job →
      db.resumes.find? (fun r => r.user_id == uid) = some resume →
      resume.parsed_text = some txt → txt ≠ "" →
      (process_internal_resume db jid uid candR intR false).db = db ∧
      (process_internal_resume db jid uid candR intR false).raised = true ∧
      (process_internal_resume db jid uid candR intR true).raised = false ∧
      (process_internal_resume db jid uid candR intR true).db =
        commitAppDb db jid uid
          (analyzedApp app (generate_candidate_analysis candR).doc
            (generate_interviewer_analysis intR).doc)) := by
  constructor
  · intro db cid cand job txt candR intR h1 h2 h3 h4
    refine ⟨?_, ?_, ?_, ?_⟩ <;>
      rw [process_external_run h1 h2 h3 h4] <;> simp
  · intro db jid uid app job resume txt candR intR h1 h2 h3 h4 h5
    refine ⟨?_, ?_, ?_, ?_⟩ <;>
      rw [process_internal_run h1 h2 h3 h4 h5] <;> simp

/-- C8: when the candidate, the job, or the resume text is missing, the task
is a silent no-op: no AnalysisClient call, no state change, no error. -/
theorem c8_missing_precondition_is_silent_noop :
    (∀ (db : Db) (cid : ℕ) (candR intR : ℕ → ModelResponse) (commitOk : Bool),
      db.externals.find? (fun c => c.id == cid) = Option.none →
      process_external_resume db cid candR intR commitOk = ⟨db, 0, false⟩) ∧
    (∀ (db : Db) (cid : ℕ) (cand : ExtCandidate) (candR intR : ℕ → ModelResponse)
      (commitOk : Bool),
      db.externals.find? (fun c => c.id == cid) = some cand →
      db.jobs.find? (fun j => j.id == cand.job_id) = Option.none →
      process_external_resume db cid candR intR commitOk = ⟨db, 0, false⟩) ∧
    (∀ (db : Db) (cid : ℕ) (cand : ExtCandidate) (job : Job)
      (candR intR : ℕ → ModelResponse) (commitOk : Bool),
      db.externals.find? (fun c => c.id == cid) = some cand →
      db.jobs.find? (fun j => j.id == cand.job_id) = some job →
      cand.raw_resume_text = Option.none ∨ cand.raw_resume_text = some "" →
      process_external_resume db cid candR intR commitOk = ⟨db, 0, false⟩) ∧
    (∀ (db : Db) (jid uid : ℕ) (candR intR : ℕ → ModelResponse) (commitOk : Bool),
      db.applications.find? (fun a => a.job_id == jid && a.user_id == uid) = Option.none →
      process_internal_resume db jid uid candR intR commitOk = ⟨db, 0, false⟩) ∧
    (∀ (db : Db) (jid uid : ℕ) (app : JobApplication)
      (candR intR : ℕ → ModelResponse) (commitOk : Bool),
      db.applications.find? (fun a => a.job_id == jid && a.user_id == uid) = some app →
      db.jobs.find? (fun j => j.id == jid) = Option.none →
      process_internal_resume db jid uid candR intR commitOk = ⟨db, 0, false⟩) ∧
    (∀ (db : Db) (jid uid : ℕ) (app : JobApplication) (job : Job)
      (candR intR : ℕ → ModelResponse) (commitOk : Bool),
      db.applications.find? (fun a => a.job_id == jid && a.user_id == uid) = some app →
      db.jobs.find? (fun j => j.id == jid) = some job →
      db.resumes.find? (fun r => r.user_id == uid) = Option.none →
      process_internal_resume db jid uid candR intR commitOk = ⟨db, 0, false⟩) ∧
    (∀ (db : Db) (jid uid : ℕ) (app : JobApplication) (job : Job) (resume : Resume)
      (candR intR : ℕ → ModelResponse) (commitOk : Bool),
      db.applications.find? (fun a => a.job_id == jid && a.user_id == uid) = some app →
      db.jobs.find? (fun j => j.id == jid) = some job →
      db.resumes.find? (fun r => r.user_id == uid) = some resume →
      resume.parsed_text = Option.none ∨ resume.parsed_text = some "" →
      process_internal_resume db jid uid candR intR commitOk = ⟨db, 0, false⟩) := by
  refine ⟨?_, ?_, ?_, ?_, ?_, ?_, ?_⟩
  · intro db cid candR intR commitOk h1
    simp [process_external_resume, h1]
  · intro db cid cand candR intR commitOk h1 h2
    simp [process_external_resume, h1, h2]
  · intro db cid cand job candR intR commitOk h1 h2 h3
    rcases h3 with h | h <;> simp [process_external_resume, h1, h2, h]
  · intro db jid uid candR intR commitOk h1
    simp [process_internal_resume, h1]
  · intro db jid uid app candR intR commitOk h1 h2
    simp [process_internal_resume, h1, h2]
  · intro db jid uid app job candR intR commitOk h1 h2 h3
    simp [process_internal_resume, h1, h2, h3]
  · intro db jid uid app job resume candR intR commitOk h1 h2 h3 h4
    rcases h4 with h | h <;> simp [process_internal_resume, h1, h2, h3, h]

/-- C1 (amended): when both AnalysisClient calls exhaust their retries, the
worker still commits status "analyzed" with both fallback documents, and the
committed final score is `calculate_final_score(interviewer fallback)`,
which is 0.05 — not the neutral 0.5. -/
theorem c1_retry_exhaustion_still_analyzed
    (db : Db) (cid : ℕ) (cand : ExtCandidate) (job : Job) (txt : String)
    (candR intR : ℕ → ModelResponse)
    (h1 : db.externals.find? (fun c => c.id == cid) = some cand)
    (h2 : db.jobs.find? (fun j => j.id == cand.job_id) = some job)
    (h3 : cand.raw_resume_text = some txt)
    (h4 : txt ≠ "")
    (h5 : ∀ i, (candR i).failed = true)
    (h6 : ∀ i, (intR i).failed = true) :
    (process_external_resume db cid candR intR true).raised = false ∧
    (process_external_resume db cid candR intR true).db =
      commitExtDb db cid (analyzedExt cand candidateFallback interviewerFallback) ∧
    calculate_final_score interviewerFallback = 0.05 := by
  have hca : (generate_candidate_analysis candR).doc = candidateFallback := by
    unfold generate_candidate_analysis
    rw [retry_exhaust h5]
  have hia : (generate_interviewer_analysis intR).doc = interviewerFallback := by
    unfold generate_interviewer_analysis
    rw [retry_exhaust h6]
  refine ⟨?_, ?_, interviewerFallback_score⟩ <;>
    rw [process_external_run h1 h2 h3 h4] <;>
    simp [hca, hia, interviewerFallback_score]

section StableSort

variable {α : Type} (p : α → Bool) (r : α → α → Prop) [DecidableRel r]

theorem orderedInsert_eq_cons {x : α} {l : List α} (h : ∀ z ∈ l, r x z) :
    List.orderedInsert r x l = x :: l := by
  cases l with
  | nil => rfl
  | cons y ys =>
    unfold List.orderedInsert
    rw [if_pos (h y (List.mem_cons_self y ys))]

theorem filter_orderedInsert_neg {x : α} (hx : p x = false) :
    ∀ l : List α, (List.orderedInsert r x l).filter p = l.filter p := by
  intro l
  induction l with
  | nil => simp [List.orderedInsert, hx]
  | cons y ys ih =>
    by_cases hxy : r x y
    · unfold List.orderedInsert
      rw [if_pos hxy]
      simp [List.filter_cons, hx]
    · unfold List.orderedInsert
      rw [if_neg hxy]
      simp only [List.filter_cons]
      rw [ih]

theorem filter_orderedInsert_pos [IsTrans α r] {x : α} (hx : p x = true) :
    ∀ l : List α, l.Sorted r →
      (List.orderedInsert r x l).filter p = List.orderedInsert r x (l.filter p) := by
  intro l
  induction l with
  | nil => simp [List.orderedInsert, hx]
  | cons y ys ih =>
    intro hl
    have hrel := List.rel_of_sorted_cons hl
    by_cases hxy : r x y
    · have h1 : (List.orderedInsert r x (y :: ys)).filter p = x :: List.filter p (y :: ys) := by
        unfold List.orderedInsert
        rw [if_pos hxy]
        simp [List.filter_cons, hx]
      rw [h1]
      have hall : ∀ z ∈ List.filter p (y :: ys), r x z := by
        intro z hz
        have hz2 := List.mem_of_mem_filter hz
        rcases List.mem_cons.mp hz2 with h | h
        · exact h ▸ hxy
        · exact IsTrans.trans x y z hxy (hrel z h)
      exact (orderedInsert_eq_cons r hall).symm
    · have h1 : List.orderedInsert r x (y :: ys) = y :: List.orderedInsert r x ys := by
        simp [List.orderedInsert, hxy]
      rw [h1, List.filter_cons]
      by_cases hpy : p y = true
      · rw [if_pos hpy, List.filter_cons, if_pos hpy]
        have h2 : List.orderedInsert r x (y :: List.filter p ys) =
            y :: List.orderedInsert r x (List.filter p ys) := by
          simp [List.orderedInsert, hxy]
        rw [h2, ih hl.of_cons]
      · rw [if_neg hpy, List.filter_cons, if_neg hpy, ih hl.of_cons]

/-- A stable sort commutes with `filter`: the sorted order of any
subpopulation equals sorting that subpopulation alone. -/
theorem filter_insertionSort [IsTrans α r] [IsTotal α r] :
    ∀ l : List α, (List.insertionSort r l).filter p = List.insertionSort r (l.filter p) := by
  intro l
  induction l with
  | nil => rfl
  | cons x xs ih =>
    show (List.orderedInsert r x (List.insertionSort r xs)).filter p = _
    by_cases hp : p x = true
    · rw [filter_orderedInsert_pos p r hp _ (List.sorted_insertionSort r xs), ih,
        List.filter_cons, if_pos hp]
      rfl
    · have hp2 : p x = false := by simpa using hp
      rw [filter_orderedInsert_neg p r hp2, ih, List.filter_cons, if_neg hp]

end StableSort

theorem applyShortlist_externals (db : Db) (jid : ℕ) (names : List String) :
    (applyShortlist db jid names).externals = db.externals.map (shortlistRow jid names) := by
  cases names with
  | nil =>
    simp only [applyShortlist, List.isEmpty_nil, if_pos]
    have h : ∀ c ∈ db.externals, shortlistRow jid [] c = id c := by
      intro c _
      simp [shortlistRow]
    exact ((List.map_congr_left h).trans (List.map_id _)).symm
  | cons n ns => simp [applyShortlist]

theorem nat_div5_eq_floor (n : ℕ) : n / 5 = ⌊(0.2 : ℚ) * n⌋₊ := by
  have h1 : (0.2 : ℚ) * n = (n : ℚ) / ((5 : ℕ) : ℚ) := by
    push_cast
    ring_nf
  rw [h1, Nat.floor_div_nat, Nat.floor_natCast]

/-- C5 (amended): the ranking is the stable descending sort by score key
(the valid sub-ranking is the stable descending sort of the valid records,
and entries with equal score keep their relative insertion order); the
shortlist size is `max(1, floor(0.2 * n_valid))` for a non-empty valid set
and 0 otherwise; and the relabeling updates exactly those records of the
job whose name is in the set of names of the top `shortlist_count` valid
entries — a name-based update, not an entry-based one. -/
theorem c5_bulk_ranking_shortlist :
    (∀ l : List RankEntry, List.Sorted rankLE (rankSort l)) ∧
    (∀ l : List RankEntry, (rankSort l).filter isValid = rankSort (l.filter isValid)) ∧
    (∀ (l : List RankEntry) (s : ℚ),
      (rankSort l).filter (fun e => decide (e.score = some s)) =
        l.filter (fun e => decide (e.score = some s))) ∧
    (∀ valid : List RankEntry,
      shortlistCount valid =
        if valid.isEmpty then 0 else max 1 (Nat.floor ((0.2 : ℚ) * valid.length))) ∧
    (∀ (db : Db) (jid : ℕ) (results : List RankEntry),
      (bulkShortlist db jid results).1.externals =
        db.externals.map (shortlistRow jid
          (topNames ((rankSort results).filter isValid)
            (shortlistCount ((rankSort results).filter isValid))))) := by
  refine ⟨?_, ?_, ?_, ?_, ?_⟩
  · intro l
    exact List.sorted_insertionSort rankLE l
  · intro l
    exact filter_insertionSort isValid rankLE l
  · intro l s
    unfold rankSort
    rw [filter_insertionSort]
    apply List.Sorted.insertionSort_eq
    apply List.pairwise_of_forall_mem_list
    intro a ha b hb
    have ha2 : a.score = some s := by simpa using (List.mem_filter.mp ha).2
    have hb2 : b.score = some s := by simpa using (List.mem_filter.mp hb).2
    show sortKey b ≤ sortKey a
    simp [sortKey, ha2, hb2]
  · intro valid
    unfold shortlistCount
    cases valid with
    | nil => simp
    | cons e es => simp [nat_div5_eq_floor]
  · intro db jid results
    show (applyShortlist db jid _).externals = _
    exact applyShortlist_externals db jid _

/-- C5 counterexample: a batch of two valid candidates that share the
derived name "a". The shortlist count is 1, yet the name-based update
relabels BOTH records to "shortlisted" — not exactly the top
`shortlist_count` entries. -/
theorem c5_counterexample_duplicate_names :
    (bulkShortlist dbDup 1 [entA1, entA2]).2.1 = 1 ∧
    ((bulkShortlist dbDup 1 [entA1, entA2]).1.externals.map (fun c => c.status)) =
      ["shortlisted", "shortlisted"] ∧
    ((bulkShortlist dbDup 1 [entA1, entA2]).1.externals.countP
      (fun c => c.status == "shortlisted")) = 2 ∧
    (1 : ℕ) ≠ 2 := by
  have hsort : rankSort [entA1, entA2] = [entA1, entA2] := by
    norm_num [rankSort, List.insertionSort, List.orderedInsert, rankLE, sortKey, entA1, entA2]
  have hvalid : (rankSort [entA1, entA2]).filter isValid = [entA1, entA2] := by
    rw [hsort]
    norm_num [isValid, entA1, entA2]
  have hcount : shortlistCount [entA1, entA2] = 1 := by
    norm_num [shortlistCount]
  have htop : topNames [entA1, entA2] 1 = ["a"] := by
    norm_num [topNames, entA1]
  have hdb : (bulkShortlist dbDup 1 [entA1, entA2]).1 = applyShortlist dbDup 1 ["a"] := by
    show applyShortlist dbDup 1 _ = _
    rw [hvalid, hcount, htop]
  refine ⟨?_, ?_, ?_, by decide⟩
  · show shortlistCount ((rankSort [entA1, entA2]).filter isValid) = 1
    rw [hvalid, hcount]
  · rw [hdb]
    norm_num [applyShortlist, shortlistRow, dbDup, candA1, candA2]
  · rw [hdb]
    norm_num [applyShortlist, shortlistRow, dbDup, candA1, candA2, List.countP, List.countP.go]

/-- C6 (amended): approving a record whose persisted status is not
"requested" fails synchronously with the fixed 404 error
"Pending request not found" (the current state is not part of the message),
and the failed attempt leaves the whole state unchanged. -/
theorem c6_illegal_transition_rejected (db : Db) (jid uid : ℕ)
    (candR intR : ℕ → ModelResponse)
    (h : ∀ app ∈ db.applications, app.job_id = jid → app.user_id = uid →
      app.status ≠ "requested") :
    approve_request db jid uid candR intR =
      (db, Except.error ⟨404, "Pending request not found"⟩) := by
  have hf : db.applications.find?
      (fun a => a.job_id == jid && a.user_id == uid && a.status == "requested") =
      Option.none := by
    rw [List.find?_eq_none]
    intro a ha
    simp only [Bool.and_eq_true, beq_iff_eq, not_and]
    rintro ⟨h1, h2⟩ h3
    exact h a ha h1 h2 h3
  simp [approve_request, hf]

/-- C6 counterexample: approving the already-approved record yields the
fixed message "Pending request not found"; the record's current state
("approved") is not contained in that message, and the state is unchanged. -/
theorem c6_counterexample_message_lacks_state :
    approve_request dbW 1 7 failR failR =
      (dbW, Except.error ⟨404, "Pending request not found"⟩) ∧
    appW.status = "approved" ∧
    ¬ ("approved".toList <:+: "Pending request not found".toList) :=
  ⟨rfl, rfl, by decide⟩

theorem c6_illegal_transition_rejected_witness :
    approve_request dbW 1 7 failR failR =
      (dbW, Except.error ⟨404, "Pending request not found"⟩) :=
  c6_illegal_transition_rejected dbW 1 7 failR failR (by
    intro app hm h1 h2
    have he : app = appW := by simpa [dbW] using hm
    subst he
    decide)

/-- C1 counterexample: a full worker run whose two AnalysisClient calls
exhaust all retries commits status "analyzed", but the committed
final_score is 0.05 — `calculate_final_score` of the interviewer fallback
document (whose fit and keyword scores are 0) — not the neutral 0.5. -/
theorem c1_counterexample_fallback_scores_five_percent :
    calculate_final_score interviewerFallback = 0.05 ∧
    (0.05 : ℚ) ≠ (0.5 : ℚ) ∧
    (process_external_resume dbW 1 failR failR true).db =
      commitExtDb dbW 1 (analyzedExt candW candidateFallback interviewerFallback) ∧
    (analyzedExt candW candidateFallback interviewerFallback).status = "analyzed" ∧
    (analyzedExt candW candidateFallback interviewerFallback).final_score = some 0.05 := by
  have hca : (generate_candidate_analysis failR).doc = candidateFallback := by
    unfold generate_candidate_analysis
    rw [@retry_exhaust failR candidateFallback (fun _ => rfl)]
  have hia : (generate_interviewer_analysis failR).doc = interviewerFallback := by
    unfold generate_interviewer_analysis
    rw [@retry_exhaust failR interviewerFallback (fun _ => rfl)]
  refine ⟨interviewerFallback_score, by norm_num, ?_, rfl, ?_⟩
  · rw [@process_external_run dbW 1 candW jobW "cv text" failR failR true rfl rfl rfl
      (by decide)]
    simp [hca, hia]
  · simp [analyzedExt, interviewerFallback_score]

theorem c1_retry_exhaustion_still_analyzed_witness :
    (process_external_resume dbW 1 failR failR true).raised = false ∧
    (process_external_resume dbW 1 failR failR true).db =
      commitExtDb dbW 1 (analyzedExt candW candidateFallback interviewerFallback) ∧
    calculate_final_score interviewerFallback = 0.05 :=
  c1_retry_exhaustion_still_analyzed dbW 1 candW jobW "cv text" failR failR rfl rfl rfl
    (by decide) (fun _ => rfl) (fun _ => rfl)

theorem c7_atomic_commit_or_rollback_witness :
    (process_external_resume dbW 1 failR failR false).db = dbW ∧
    (process_external_resume dbW 1 failR failR false).raised = true :=
  have h := c7_atomic_commit_or_rollback.1 dbW 1 candW jobW "cv text" failR failR
    rfl rfl rfl (by decide)
  ⟨h.1, h.2.1⟩

theorem c8_missing_precondition_is_silent_noop_witness :
    process_external_resume emptyDb 5 failR failR true = ⟨emptyDb, 0, false⟩ ∧
    process_internal_resume emptyDb 1 2 failR failR true = ⟨emptyDb, 0, false⟩ :=
  ⟨c8_missing_precondition_is_silent_noop.1 emptyDb 5 failR failR true rfl,
    c8_missing_precondition_is_silent_noop.2.2.2.1 emptyDb 1 2 failR failR true rfl⟩

/-- C10: a present-but-unconvertible `technical_fit_score`,
`experience_fit_score` or `candidate_proficiency` contributes 0.0 (the
`_safe_float` default), while the same key missing yields the neutral 0.5;
an unconvertible `keyword_match_score` falls back to 5.0, i.e. 0.5 after
the division — so absence and malformed presence give different scores
(0.3 vs 0.5 on the technical-fit documents below). -/
theorem c10_malformed_vs_missing (x : PyVal) (hx : pyFloat x = Option.none) :
    techOf (docTech x) = Except.ok 0 ∧
    techOf docEmptyAssessment = Except.ok 0.5 ∧
    expOf (docExp x) = Except.ok 0 ∧
    expOf docEmptyAssessment = Except.ok 0.5 ∧
    avgOf (docProf x) = Except.ok 0 ∧
    avgOf docProfMissing = Except.ok 0.5 ∧
    keywordOf (docKw x) = Except.ok 0.5 ∧
    calculate_final_score (docTech x) = 0.3 ∧
    calculate_final_score docEmptyAssessment = 0.5 ∧
    (0.3 : ℚ) ≠ (0.5 : ℚ) := by
  have ht : techOf (docTech x) = Except.ok 0 := by
    simp [techOf, docTech, dictGet, List.lookup, _safe_float, hx, bind, Except.bind,
      pure, Except.pure]
  have ht2 : techOf docEmptyAssessment = Except.ok 0.5 := by
    simp [techOf, docEmptyAssessment, dictGet, List.lookup, _safe_float, pyFloat, clampQ,
      bind, Except.bind, pure, Except.pure]
    norm_num
  have he : expOf (docExp x) = Except.ok 0 := by
    simp [expOf, docExp, dictGet, List.lookup, _safe_float, hx, bind, Except.bind,
      pure, Except.pure]
  have he2 : expOf docEmptyAssessment = Except.ok 0.5 := by
    simp [expOf, docEmptyAssessment, dictGet, List.lookup, _safe_float, pyFloat, clampQ,
      bind, Except.bind, pure, Except.pure]
    norm_num
  have hk2 : keywordOf (docTech x) = Except.ok 0.5 := by
    simp [keywordOf, docTech, dictGet, List.lookup, _safe_float, pyFloat, clampQ,
      bind, Except.bind, pure, Except.pure]
    norm_num
  have hk3 : keywordOf docEmptyAssessment = Except.ok 0.5 := by
    simp [keywordOf, docEmptyAssessment, dictGet, List.lookup, _safe_float, pyFloat, clampQ,
      bind, Except.bind, pure, Except.pure]
    norm_num
  have ha2 : avgOf (docTech x) = Except.ok 0.5 := by
    simp [avgOf, mhsOf, avgSkill, truthy, docTech, dictGet, List.lookup,
      bind, Except.bind, pure, Except.pure]
  have ha3 : avgOf docEmptyAssessment = Except.ok 0.5 := by
    simp [avgOf, mhsOf, avgSkill, truthy, docEmptyAssessment, dictGet, List.lookup,
      bind, Except.bind, pure, Except.pure]
  have he3 : expOf (docTech x) = Except.ok 0.5 := by
    simp [expOf, docTech, dictGet, List.lookup, _safe_float, pyFloat, clampQ,
      bind, Except.bind, pure, Except.pure]
    norm_num
  refine ⟨ht, ht2, he, he2, ?_, ?_, ?_, ?_, ?_, by norm_num⟩
  · simp [avgOf, mhsOf, avgSkill, truthy, docProf, sumSkills, dictGet, List.lookup,
      _safe_float, hx, bind, Except.bind, pure, Except.pure]
  · simp [avgOf, mhsOf, avgSkill, truthy, docProfMissing, sumSkills, dictGet, List.lookup,
      _safe_float, pyFloat, clampQ, bind, Except.bind, pure, Except.pure]
    norm_num
  · simp [keywordOf, docKw, dictGet, List.lookup, _safe_float, hx, bind, Except.bind,
      pure, Except.pure]
    norm_num
  · have hcore : scoreCore (docTech x) = Except.ok 0.3 := by
      rw [scoreCore_eq ht he3 hk2 ha2]
      norm_num
    unfold calculate_final_score
    rw [hcore]
    show pyRound2 (clampQ 0 1 (0.3 : ℚ)) = 0.3
    rw [clampQ_eq_self (by norm_num) (by norm_num)]
    exact pyRound2_int _ 30 (by norm_num)
  · have hcore : scoreCore docEmptyAssessment = Except.ok 0.5 := by
      rw [scoreCore_eq ht2 he2 hk3 ha3]
      norm_num
    unfold calculate_final_score
    rw [hcore]
    show pyRound2 (clampQ 0 1 (0.5 : ℚ)) = 0.5
    rw [clampQ_eq_self (by norm_num) (by norm_num)]
    exact pyRound2_int _ 50 (by norm_num)

theorem c10_malformed_vs_missing_witness :
    pyFloat PyVal.null = Option.none ∧
    techOf (docTech PyVal.null) = Except.ok 0 ∧
    calculate_final_score (docTech PyVal.null) = 0.3 :=
  have h := c10_malformed_vs_missing PyVal.null rfl
  ⟨rfl, h.1, h.2.2.2.2.2.2.2.1⟩
